import Mathlib

/-
Verification of CustomMCPTools: shallow embedding of the two MCP tool
handlers, src/tools/QueryDatabase/database_agent.py and
src/tools/EmailService/mcp_server_email.py.

External systems (the hosted language model, the SQL database, the SMTP
transport) are modelled as oracles: records of functions returning
`Except String _`, where `Except.error e` stands for a raised exception
whose text is `e`.  Each handler is embedded as a total Lean function that
also returns the ordered list of external calls it performed, so that
properties of the form "stage X is never invoked" are statable as facts
about the trace.  The strings returned by the handlers mirror the Python
source verbatim; the dict handed to `json.dumps` in database_agent is
modelled as the record `DAOutput` (serialisation by the `json` library is
external to the repository).
-/

/-- Python truthiness of an `os.environ.get` result: `None` and the empty
string are falsy, every other string is truthy. -/
def truthy : Option String → Bool
  | none => false
  | some s => s != ""

namespace QueryDatabase

/-- Pipeline state (`class State`, database_agent.py lines 28-32). -/
structure State where
  question : String
  query : String
  result : String
  answer : String
deriving DecidableEq

/-- Structured model output (`class QueryOutput`, lines 34-36): a single
field holding the generated SQL query text. -/
structure QueryOutput where
  query : String
deriving DecidableEq

/-- The handle produced by `SQLDatabase.from_uri`: its `dialect` string and
the behaviour of `db.get_table_info()` (a live-database call that may
raise). -/
structure SQLDatabase where
  dialect : String
  get_table_info : Except String String

/-- The argument dict passed to `query_prompt_template.invoke`
(lines 90-97): dialect, the fixed top_k of 10, the live schema text, and
the user question. -/
structure QueryPrompt where
  dialect : String
  top_k : Nat
  table_info : String
  input : String
deriving DecidableEq

/-- One external call performed by `database_agent`, recorded in the order
the Python code performs them. -/
inductive DBEvent where
  | from_uriCall (url : String)
  | get_table_infoCall
  | structuredLlmCall (prompt : QueryPrompt)
  | executeQueryCall (query : String)
  | answerLlmCall (prompt : String)
deriving DecidableEq

/-- Oracle for the process environment and every external system touched
by `database_agent`: `os.environ`, `SQLDatabase.from_uri`, the
structured-output model invocation inside `write_query`, the free-text
model invocation inside `generate_answer`, and `QuerySQLDatabaseTool`. -/
structure ExternalEnv where
  env : String → Option String
  from_uri : String → Except String SQLDatabase
  structuredLlm : QueryPrompt → Except String QueryOutput
  llm : String → Except String String
  execQueryTool : SQLDatabase → String → Except String String

/-- `write_query` (lines 88-100): build the prompt from the dialect,
top_k = 10, the live table info and the question, then invoke the
structured-output model.  Returns the `QueryOutput` (the returned dict
`\x7b"query": result["query"]\x7d`) together with the external calls made. -/
def write_query (ext : ExternalEnv) (db : SQLDatabase) (state : State) :
    Except String QueryOutput × List DBEvent :=
  match db.get_table_info with
  | .error e => (.error e, [.get_table_infoCall])
  | .ok table_info =>
    let prompt : QueryPrompt :=
      { dialect := db.dialect, top_k := 10, table_info := table_info,
        input := state.question }
    (ext.structuredLlm prompt, [.get_table_infoCall, .structuredLlmCall prompt])

/-- `execute_query` (lines 103-106): run `QuerySQLDatabaseTool` on the
state's query.  Returns the raw result text (the dict `\x7b"result": ...\x7d`). -/
def execute_query (ext : ExternalEnv) (db : SQLDatabase) (state : State) :
    Except String String × List DBEvent :=
  (ext.execQueryTool db state.query, [.executeQueryCall state.query])

/-- The f-string prompt built by `generate_answer` (lines 111-117). -/
def answer_prompt (state : State) : String :=
  "Given the following user question, corresponding SQL query, " ++
  "and SQL result, answer the user question.\n\n" ++
  "Question: " ++ state.question ++ "\n" ++
  "SQL Query: " ++ state.query ++ "\n" ++
  "SQL Result: " ++ state.result

/-- `generate_answer` (lines 109-119): invoke the model on the combined
prompt and return its content (the dict `\x7b"answer": response.content\x7d`). -/
def generate_answer (ext : ExternalEnv) (state : State) :
    Except String String × List DBEvent :=
  (ext.llm (answer_prompt state), [.answerLlmCall (answer_prompt state)])

/-- `state.update(write_query(state))`: the dict returned by `write_query`
has the single key `query`, so only that field is written. -/
def State.updateQuery (s : State) (o : QueryOutput) : State :=
  { s with query := o.query }

/-- `state.update(execute_query(state))`: only the `result` field is
written. -/
def State.updateResult (s : State) (r : String) : State :=
  { s with result := r }

/-- `state.update(generate_answer(state))`: only the `answer` field is
written. -/
def State.updateAnswer (s : State) (a : String) : State :=
  { s with answer := a }

/-- The body of the `try` block of `database_agent` (lines 49-139):
environment checks, database initialisation, then the three sequential
pipeline stages.  `Except.error e` is the exception caught at line 141.
The second component is the ordered trace of external calls. -/
def database_agent_run (ext : ExternalEnv) (question : String) :
    Except String State × List DBEvent :=
  if !truthy (ext.env "OPENAI_API_KEY") then
    (.error "OPENAI_API_KEY environment variable is required", [])
  else if !truthy (ext.env "POSTGRESQL_URL") then
    (.error "POSTGRESQL_URL environment variable is required", [])
  else
    let url := (ext.env "POSTGRESQL_URL").getD ""
    match ext.from_uri url with
    | .error e => (.error e, [.from_uriCall url])
    | .ok db =>
      let state0 : State :=
        { question := question, query := "", result := "", answer := "" }
      match write_query ext db state0 with
      | (.error e, evs1) => (.error e, .from_uriCall url :: evs1)
      | (.ok out, evs1) =>
        let state1 := state0.updateQuery out
        match execute_query ext db state1 with
        | (.error e, evs2) => (.error e, .from_uriCall url :: (evs1 ++ evs2))
        | (.ok res, evs2) =>
          let state2 := state1.updateResult res
          match generate_answer ext state2 with
          | (.error e, evs3) =>
            (.error e, .from_uriCall url :: (evs1 ++ evs2 ++ evs3))
          | (.ok ans, evs3) =>
            (.ok (state2.updateAnswer ans),
             .from_uriCall url :: (evs1 ++ evs2 ++ evs3))

/-- The JSON object returned by `database_agent`: the dict handed to
`json.dumps` at lines 134-139 (success) or 142-147 (the except handler). -/
structure DAOutput where
  answer : String
  query : String
  result : String
  error : Option String
deriving DecidableEq

/-- `database_agent` (lines 38-147): run the pipeline; on success return
the three content fields with `error = None`, on any exception return
empty content fields and `"Error: " ++ str(e)`. -/
def database_agent (ext : ExternalEnv) (question : String) : DAOutput :=
  match (database_agent_run ext question).1 with
  | .ok s =>
    { answer := s.answer, query := s.query, result := s.result, error := none }
  | .error e =>
    { answer := "", query := "", result := "", error := some ("Error: " ++ e) }

/-- Recogniser for the answer-stage model call in a trace. -/
def isAnswerLlmCall : DBEvent → Bool
  | .answerLlmCall _ => true
  | _ => false

/-- Two successive invocations of `database_agent` with the same question
against the same oracles: an unchanged database and a deterministic model
stub, exactly the idempotence scenario of the spec. -/
def database_agent_twice (ext : ExternalEnv) (q : String) : DAOutput × DAOutput :=
  (database_agent ext q, database_agent ext q)

/-- A concrete database handle used by witnesses: a postgresql dialect and
a one-table schema. -/
def dbStub : SQLDatabase :=
  { dialect := "postgresql", get_table_info := .ok "users(name text)" }

/-- Oracle for the happy path: both configuration values present, the
model stub deterministically returns the query
`SELECT name FROM users LIMIT 10`, the database stub returns two rows, and
the answer stub is non-empty. -/
def extHappy : ExternalEnv where
  env := fun _ => some "sk-test"
  from_uri := fun _ => .ok dbStub
  structuredLlm := fun _ => .ok { query := "SELECT name FROM users LIMIT 10" }
  llm := fun _ => .ok "The users are Alice and Bob."
  execQueryTool := fun _ _ => .ok "[(\"Alice\",), (\"Bob\",)]"

/-- Oracle whose model and database stubs all succeed but return empty
strings. -/
def extEmptyStubs : ExternalEnv where
  env := fun _ => some "sk-test"
  from_uri := fun _ => .ok dbStub
  structuredLlm := fun _ => .ok { query := "" }
  llm := fun _ => .ok ""
  execQueryTool := fun _ _ => .ok ""

/-- Oracle in which query execution raises (an invalid column). -/
def extExecFail : ExternalEnv where
  env := fun _ => some "sk-test"
  from_uri := fun _ => .ok dbStub
  structuredLlm := fun _ => .ok { query := "SELECT name FROM users LIMIT 10" }
  llm := fun _ => .ok "The users are Alice and Bob."
  execQueryTool := fun _ _ => .error "column does not exist"

/-- Oracle with an empty process environment. -/
def extNoEnv : ExternalEnv where
  env := fun _ => none
  from_uri := fun _ => .error "unreachable"
  structuredLlm := fun _ => .error "unreachable"
  llm := fun _ => .error "unreachable"
  execQueryTool := fun _ _ => .error "unreachable"

end QueryDatabase

namespace EmailService

/-- The message built at mcp_server_email.py lines 42-45: `MIMEText(body)`
with Subject, From and To headers. -/
structure MIMEText where
  body : String
  subject : String
  from_addr : String
  to_addr : String
deriving DecidableEq

/-- One step performed by `send_email`, recorded in the order the Python
code performs it: message construction, then the four transport calls. -/
inductive EmailEvent where
  | msgBuilt (msg : MIMEText)
  | connectCall (server : String) (port : Nat)
  | starttlsCall
  | loginCall (user : String) (password : String)
  | sendMessageCall (msg : MIMEText)
deriving DecidableEq

/-- Oracle for the process environment and the SMTP transport:
`os.getenv`, `smtplib.SMTP(server, port)`, `server.starttls()`,
`server.login(user, password)` and `server.send_message(msg)`. -/
structure SmtpEnv where
  env : String → Option String
  connect : String → Nat → Except String Unit
  starttls : Except String Unit
  login : String → String → Except String Unit
  send_message : MIMEText → Except String Unit

/-- `send_email` (lines 16-55): read the two credentials, fail with the
ValueError text if either is falsy, otherwise build the message and run
connect / starttls / login / send, catching any exception into
`"Error sending email: " ++ str(e)`.  The second component is the ordered
trace of steps performed. -/
def send_email_run (ext : SmtpEnv) (to_email subject body : String) :
    String × List EmailEvent :=
  let smtp_server := "smtp.gmail.com"
  let smtp_port := 587
  let smtp_user := ext.env "SMTP_USER"
  let smtp_password := ext.env "SMTP_PASSWORD"
  if !truthy smtp_user || !truthy smtp_password then
    ("Error sending email: SMTP_USER and SMTP_PASSWORD environment variables are required",
     [])
  else
    let user := smtp_user.getD ""
    let pw := smtp_password.getD ""
    let msg : MIMEText :=
      { body := body, subject := subject, from_addr := user, to_addr := to_email }
    match ext.connect smtp_server smtp_port with
    | .error e =>
      ("Error sending email: " ++ e,
       [.msgBuilt msg, .connectCall smtp_server smtp_port])
    | .ok _ =>
      match ext.starttls with
      | .error e =>
        ("Error sending email: " ++ e,
         [.msgBuilt msg, .connectCall smtp_server smtp_port, .starttlsCall])
      | .ok _ =>
        match ext.login user pw with
        | .error e =>
          ("Error sending email: " ++ e,
           [.msgBuilt msg, .connectCall smtp_server smtp_port, .starttlsCall,
            .loginCall user pw])
        | .ok _ =>
          match ext.send_message msg with
          | .error e =>
            ("Error sending email: " ++ e,
             [.msgBuilt msg, .connectCall smtp_server smtp_port, .starttlsCall,
              .loginCall user pw, .sendMessageCall msg])
          | .ok _ =>
            ("Email successfully sent to " ++ to_email ++ " with subject: " ++ subject,
             [.msgBuilt msg, .connectCall smtp_server smtp_port, .starttlsCall,
              .loginCall user pw, .sendMessageCall msg])

/-- The string `send_email` returns to its caller. -/
def send_email (ext : SmtpEnv) (to_email subject body : String) : String :=
  (send_email_run ext to_email subject body).1

/-- Recogniser for message construction in a trace. -/
def isMsgBuilt : EmailEvent → Bool
  | .msgBuilt _ => true
  | _ => false

/-- Recogniser for a transport send in a trace. -/
def isSendMessageCall : EmailEvent → Bool
  | .sendMessageCall _ => true
  | _ => false

/-- Recogniser for any network-transport call (connect, starttls, login or
send) in a trace. -/
def isNetworkCall : EmailEvent → Bool
  | .msgBuilt _ => false
  | _ => true

/-- Transport oracle for the happy path: credentials present and every
transport step accepted. -/
def smtpHappy : SmtpEnv where
  env := fun _ => some "me@example.com"
  connect := fun _ _ => .ok ()
  starttls := .ok ()
  login := fun _ _ => .ok ()
  send_message := fun _ => .ok ()

/-- Transport oracle with an empty process environment. -/
def smtpNoCreds : SmtpEnv where
  env := fun _ => none
  connect := fun _ _ => .error "unreachable"
  starttls := .error "unreachable"
  login := fun _ _ => .error "unreachable"
  send_message := fun _ => .error "unreachable"

/-- Transport oracle in which authentication is rejected. -/
def smtpLoginFail : SmtpEnv where
  env := fun _ => some "me@example.com"
  connect := fun _ _ => .ok ()
  starttls := .ok ()
  login := fun _ _ => .error "auth rejected"
  send_message := fun _ => .ok ()

end EmailService

/-- A string with a non-empty left component is non-empty after append. -/
theorem append_left_ne_empty (s t : String) (h : s ≠ "") : s ++ t ≠ "" := by
  intro hc
  apply h
  obtain ⟨l⟩ := s
  obtain ⟨m⟩ := t
  have hd : (String.mk l ++ String.mk m).data = l ++ m := rfl
  rw [hc] at hd
  have h2 : l ++ m = [] := hd.symm
  rw [List.append_eq_nil] at h2
  rw [h2.1]

namespace QueryDatabase

/-- Claim C1: database_agent never propagates an exception: its embedding is a
total function, and on any failure of the pipeline (any oracle behaviour,
any exception raised by the model or database calls) it returns the JSON
object with empty answer, query and result fields and a non-empty error
field carrying the exception text. -/
theorem database_agent_failure_shape (ext : ExternalEnv) (question : String) :
    (∃ s, (database_agent_run ext question).1 = .ok s ∧
      database_agent ext question =
        { answer := s.answer, query := s.query, result := s.result,
          error := none }) ∨
    (∃ e, (database_agent_run ext question).1 = .error e ∧
      database_agent ext question =
        { answer := "", query := "", result := "",
          error := some ("Error: " ++ e) } ∧
      "Error: " ++ e ≠ "") := by
  unfold database_agent
  cases h : (database_agent_run ext question).1 with
  | ok s => exact .inl ⟨s, rfl, rfl⟩
  | error e => exact .inr ⟨e, rfl, rfl, append_left_ne_empty _ _ (by decide)⟩

/-- Claim C2 as stated is false on the code: the success path puts the model and
database outputs into the content fields verbatim, so with stubs that
succeed with empty strings the call returns all-empty content fields AND a
null error, satisfying neither disjunct of the claimed all-or-nothing
dichotomy. -/
theorem database_agent_all_or_nothing_counterexample :
    ¬ ((((database_agent extEmptyStubs "q").answer ≠ "" ∧
         (database_agent extEmptyStubs "q").query ≠ "" ∧
         (database_agent extEmptyStubs "q").result ≠ "") ∧
        ((database_agent extEmptyStubs "q").error = none ∨
         (database_agent extEmptyStubs "q").error = some "")) ∨
       (((database_agent extEmptyStubs "q").answer = "" ∧
         (database_agent extEmptyStubs "q").query = "" ∧
         (database_agent extEmptyStubs "q").result = "") ∧
        ∃ e, (database_agent extEmptyStubs "q").error = some e ∧ e ≠ "")) := by
  have h : database_agent extEmptyStubs "q" =
      { answer := "", query := "", result := "", error := none } := rfl
  rw [h]
  simp

/-- Claim C2 amended: every call either returns error = null (with the content
fields equal to the pipeline outputs, which are non-empty whenever the
stubbed model and database outputs are non-empty), or returns all three
content fields empty with a non-empty error.  In particular, with a model
stub returning `SELECT name FROM users LIMIT 10` and a database stub
returning the two rows Alice and Bob, the returned query and result equal
the stubs, the answer is non-empty, and the error is null. -/
theorem database_agent_all_or_nothing :
    (∀ (ext : ExternalEnv) (q : String),
      (database_agent ext q).error = none ∨
      ((database_agent ext q).answer = "" ∧ (database_agent ext q).query = "" ∧
       (database_agent ext q).result = "" ∧
       ∃ e, (database_agent ext q).error = some e ∧ e ≠ "")) ∧
    (database_agent extHappy "list user names" =
      { answer := "The users are Alice and Bob.",
        query := "SELECT name FROM users LIMIT 10",
        result := "[(\"Alice\",), (\"Bob\",)]",
        error := none } ∧
     "The users are Alice and Bob." ≠ "" ∧
     "SELECT name FROM users LIMIT 10" ≠ "" ∧
     "[(\"Alice\",), (\"Bob\",)]" ≠ "") := by
  constructor
  · intro ext q
    unfold database_agent
    cases h : (database_agent_run ext q).1 with
    | ok s => exact .inl rfl
    | error e =>
      exact .inr ⟨rfl, rfl, rfl, "Error: " ++ e, rfl,
        append_left_ne_empty _ _ (by decide)⟩
  · exact ⟨rfl, by decide, by decide, by decide⟩

/-- Claim C9: the handler holds no mutable state of its own — every external
response is a function of the oracles — so two successive calls with the
same question, an unchanged database and a deterministic model stub return
identical query, result and answer. -/
theorem database_agent_deterministic (ext : ExternalEnv) (q : String) :
    (database_agent_twice ext q).1.query = (database_agent_twice ext q).2.query ∧
    (database_agent_twice ext q).1.result = (database_agent_twice ext q).2.result ∧
    (database_agent_twice ext q).1.answer = (database_agent_twice ext q).2.answer :=
  ⟨rfl, rfl, rfl⟩

end QueryDatabase

namespace QueryDatabase

/-- The events of write_query never include an answer-stage model call. -/
theorem write_query_no_answer_call (ext : ExternalEnv) (db : SQLDatabase)
    (s : State) (r : Except String QueryOutput) (evs : List DBEvent)
    (h : write_query ext db s = (r, evs)) :
    evs.filter isAnswerLlmCall = [] := by
  unfold write_query at h
  cases hti : db.get_table_info with
  | error e2 =>
    rw [hti] at h
    have h2 := congrArg Prod.snd h
    simp only at h2
    rw [← h2]
    rfl
  | ok ti =>
    rw [hti] at h
    have h2 := congrArg Prod.snd h
    simp only at h2
    rw [← h2]
    rfl

/-- Claim C3: whenever the pipeline reaches the query-execution stage and that
stage raises, the answer-generation model call is never issued (the trace
contains no answer-stage event) and the returned JSON carries empty
content fields and a non-empty error. -/
theorem database_agent_exec_failure_skips_answer
    (ext : ExternalEnv) (q : String) (db : SQLDatabase) (out : QueryOutput)
    (e : String) (evs : List DBEvent)
    (h1 : truthy (ext.env "OPENAI_API_KEY") = true)
    (h2 : truthy (ext.env "POSTGRESQL_URL") = true)
    (hdb : ext.from_uri ((ext.env "POSTGRESQL_URL").getD "") = .ok db)
    (hwq : write_query ext db
      { question := q, query := "", result := "", answer := "" } = (.ok out, evs))
    (hex : ext.execQueryTool db out.query = .error e) :
    database_agent ext q =
      { answer := "", query := "", result := "",
        error := some ("Error: " ++ e) } ∧
    ("Error: " ++ e) ≠ "" ∧
    (database_agent_run ext q).2.filter isAnswerLlmCall = [] := by
  have hrun : database_agent_run ext q =
      (.error e, .from_uriCall ((ext.env "POSTGRESQL_URL").getD "") ::
        (evs ++ [.executeQueryCall out.query])) := by
    unfold database_agent_run
    rw [h1, h2]
    simp only [Bool.not_true, Bool.false_eq_true, if_false, hdb, hwq,
      execute_query, State.updateQuery, hex]
  refine ⟨?_, append_left_ne_empty _ _ (by decide), ?_⟩
  · unfold database_agent
    rw [hrun]
  · rw [hrun]
    have hevs := write_query_no_answer_call ext db
      { question := q, query := "", result := "", answer := "" } (.ok out) evs hwq
    simp [List.filter_cons, List.filter_append, hevs, isAnswerLlmCall]

/-- Witness for C3 at a concrete oracle whose query execution raises. -/
theorem database_agent_exec_failure_skips_answer_witness :
    database_agent extExecFail "q" =
      { answer := "", query := "", result := "",
        error := some ("Error: " ++ "column does not exist") } ∧
    ("Error: " ++ "column does not exist") ≠ "" ∧
    (database_agent_run extExecFail "q").2.filter isAnswerLlmCall = [] :=
  database_agent_exec_failure_skips_answer extExecFail "q" dbStub
    { query := "SELECT name FROM users LIMIT 10" } "column does not exist"
    [DBEvent.get_table_infoCall,
     DBEvent.structuredLlmCall
       { dialect := "postgresql", top_k := 10,
         table_info := "users(name text)", input := "q" }]
    (by decide) (by decide) rfl rfl rfl

/-- Claim C4: when either required configuration value is absent from the
environment, the call performs zero external calls (empty trace) and
returns empty content fields with a non-empty error. -/
theorem database_agent_missing_config_no_calls (ext : ExternalEnv) (q : String)
    (h : ext.env "OPENAI_API_KEY" = none ∨ ext.env "POSTGRESQL_URL" = none) :
    (database_agent_run ext q).2 = [] ∧
    ∃ e, database_agent ext q =
        { answer := "", query := "", result := "", error := some e } ∧ e ≠ "" := by
  rcases h with h | h
  · have hrun : database_agent_run ext q =
        (.error "OPENAI_API_KEY environment variable is required", []) := by
      unfold database_agent_run
      rw [h]
      rfl
    refine ⟨by rw [hrun],
      "Error: " ++ "OPENAI_API_KEY environment variable is required", ?_,
      append_left_ne_empty _ _ (by decide)⟩
    unfold database_agent
    rw [hrun]
  · cases hb : truthy (ext.env "OPENAI_API_KEY") with
    | false =>
      have hrun : database_agent_run ext q =
          (.error "OPENAI_API_KEY environment variable is required", []) := by
        unfold database_agent_run
        rw [hb]
        rfl
      refine ⟨by rw [hrun],
        "Error: " ++ "OPENAI_API_KEY environment variable is required", ?_,
        append_left_ne_empty _ _ (by decide)⟩
      unfold database_agent
      rw [hrun]
    | true =>
      have hrun : database_agent_run ext q =
          (.error "POSTGRESQL_URL environment variable is required", []) := by
        unfold database_agent_run
        rw [hb, h]
        rfl
      refine ⟨by rw [hrun],
        "Error: " ++ "POSTGRESQL_URL environment variable is required", ?_,
        append_left_ne_empty _ _ (by decide)⟩
      unfold database_agent
      rw [hrun]

/-- Witness for C4 at a concrete oracle with an empty environment. -/
theorem database_agent_missing_config_no_calls_witness :
    (database_agent_run extNoEnv "q").2 = [] ∧
    ∃ e, database_agent extNoEnv "q" =
        { answer := "", query := "", result := "", error := some e } ∧ e ≠ "" :=
  database_agent_missing_config_no_calls extNoEnv "q" (Or.inl rfl)

end QueryDatabase

namespace QueryDatabase

/-- Claim C8: fields are written strictly in order and never revised.  Each
stage's state update writes exactly one field (the frame conjuncts), and
any successful run produces exactly the state obtained by applying the
query, result and answer updates in that order to the initial state, so
the question equals the input and each field retains the value its stage
wrote. -/
theorem database_agent_fields_written_in_order
    (ext : ExternalEnv) (q : String) (st : State)
    (h : (database_agent_run ext q).1 = .ok st) :
    (∃ out res ans,
      st = (((State.mk q "" "" "").updateQuery out).updateResult res).updateAnswer ans ∧
      st.question = q ∧ st.query = out.query ∧ st.result = res ∧ st.answer = ans) ∧
    (∀ (s : State) (o : QueryOutput),
      (s.updateQuery o).question = s.question ∧
      (s.updateQuery o).result = s.result ∧ (s.updateQuery o).answer = s.answer) ∧
    (∀ (s : State) (r : String),
      (s.updateResult r).question = s.question ∧
      (s.updateResult r).query = s.query ∧ (s.updateResult r).answer = s.answer) ∧
    (∀ (s : State) (a : String),
      (s.updateAnswer a).question = s.question ∧
      (s.updateAnswer a).query = s.query ∧ (s.updateAnswer a).result = s.result) := by
  refine ⟨?_, fun s o => ⟨rfl, rfl, rfl⟩, fun s r => ⟨rfl, rfl, rfl⟩,
    fun s a => ⟨rfl, rfl, rfl⟩⟩
  simp only [database_agent_run] at h
  split at h
  · simp at h
  split at h
  · simp at h
  split at h
  · simp at h
  next db hdb =>
    split at h
    · simp at h
    next out evs1 hwq =>
      split at h
      · simp at h
      next res evs2 hex =>
        split at h
        · simp at h
        next ans evs3 hga =>
          simp only [Prod.fst] at h
          injection h with h2
          refine ⟨out, res, ans, h2.symm, ?_, ?_, ?_, ?_⟩ <;>
            rw [← h2] <;>
            simp [State.updateQuery, State.updateResult, State.updateAnswer]

/-- Witness for C8 at the happy-path oracle. -/
theorem database_agent_fields_written_in_order_witness :
    (∃ out res ans,
      (State.mk "list user names" "SELECT name FROM users LIMIT 10"
          "[(\"Alice\",), (\"Bob\",)]" "The users are Alice and Bob.") =
        (((State.mk "list user names" "" "" "").updateQuery out).updateResult
            res).updateAnswer ans ∧
      (State.mk "list user names" "SELECT name FROM users LIMIT 10"
          "[(\"Alice\",), (\"Bob\",)]" "The users are Alice and Bob.").question =
        "list user names" ∧
      (State.mk "list user names" "SELECT name FROM users LIMIT 10"
          "[(\"Alice\",), (\"Bob\",)]" "The users are Alice and Bob.").query =
        out.query ∧
      (State.mk "list user names" "SELECT name FROM users LIMIT 10"
          "[(\"Alice\",), (\"Bob\",)]" "The users are Alice and Bob.").result =
        res ∧
      (State.mk "list user names" "SELECT name FROM users LIMIT 10"
          "[(\"Alice\",), (\"Bob\",)]" "The users are Alice and Bob.").answer =
        ans) ∧
    (∀ (s : State) (o : QueryOutput),
      (s.updateQuery o).question = s.question ∧
      (s.updateQuery o).result = s.result ∧ (s.updateQuery o).answer = s.answer) ∧
    (∀ (s : State) (r : String),
      (s.updateResult r).question = s.question ∧
      (s.updateResult r).query = s.query ∧ (s.updateResult r).answer = s.answer) ∧
    (∀ (s : State) (a : String),
      (s.updateAnswer a).question = s.question ∧
      (s.updateAnswer a).query = s.query ∧ (s.updateAnswer a).result = s.result) :=
  database_agent_fields_written_in_order extHappy "list user names"
    (State.mk "list user names" "SELECT name FROM users LIMIT 10"
      "[(\"Alice\",), (\"Bob\",)]" "The users are Alice and Bob.") rfl

end QueryDatabase

namespace EmailService

/-- Claim C5: when either SMTP credential is absent or empty, send_email returns
the required-variables error string and performs no network I/O: the trace
is empty, so no transport connection is ever attempted. -/
theorem send_email_missing_creds_no_network (ext : SmtpEnv)
    (to_email subject body : String)
    (h : truthy (ext.env "SMTP_USER") = false ∨
         truthy (ext.env "SMTP_PASSWORD") = false) :
    send_email ext to_email subject body =
      "Error sending email: SMTP_USER and SMTP_PASSWORD environment variables are required" ∧
    (send_email_run ext to_email subject body).2 = [] := by
  have hrun : send_email_run ext to_email subject body =
      ("Error sending email: SMTP_USER and SMTP_PASSWORD environment variables are required",
       []) := by
    simp only [send_email_run]
    rcases h with h | h
    · rw [h]
      rfl
    · cases hb : truthy (ext.env "SMTP_USER") with
      | false => rfl
      | true =>
        rw [h]
        rfl
  exact ⟨by unfold send_email; rw [hrun], by rw [hrun]⟩

/-- Witness for C5 at a concrete oracle with an empty environment. -/
theorem send_email_missing_creds_no_network_witness :
    send_email smtpNoCreds "a@example.com" "Hi" "Test" =
      "Error sending email: SMTP_USER and SMTP_PASSWORD environment variables are required" ∧
    (send_email_run smtpNoCreds "a@example.com" "Hi" "Test").2 = [] :=
  send_email_missing_creds_no_network smtpNoCreds "a@example.com" "Hi" "Test"
    (Or.inl rfl)

end EmailService

/-- A present, non-empty environment value is truthy. -/
theorem truthy_some (u : String) (h : u ≠ "") : truthy (some u) = true := by
  simp [truthy, h]

/-- String append is associative. -/
theorem string_append_assoc (a b c : String) : a ++ b ++ c = a ++ (b ++ c) := by
  obtain ⟨l⟩ := a
  obtain ⟨m⟩ := b
  obtain ⟨n⟩ := c
  show String.mk (l ++ m ++ n) = String.mk (l ++ (m ++ n))
  rw [List.append_assoc]

namespace EmailService

/-- Claim C6: with valid credentials, an exception raised at any transport stage
(connect, the starttls handshake, login, or send) is caught and converted
into the error string carrying the underlying failure reason; the
embedding is a total function, so no exception ever escapes. -/
theorem send_email_stage_failure_returns_error_string
    (ext : SmtpEnv) (to_email subject body u pw : String)
    (hu : ext.env "SMTP_USER" = some u) (hu2 : u ≠ "")
    (hp : ext.env "SMTP_PASSWORD" = some pw) (hp2 : pw ≠ "") :
    (∀ e, ext.connect "smtp.gmail.com" 587 = .error e →
      send_email ext to_email subject body = "Error sending email: " ++ e ∧
      "Error sending email: " ++ e ≠ "") ∧
    (∀ e, ext.connect "smtp.gmail.com" 587 = .ok () →
      ext.starttls = .error e →
      send_email ext to_email subject body = "Error sending email: " ++ e ∧
      "Error sending email: " ++ e ≠ "") ∧
    (∀ e, ext.connect "smtp.gmail.com" 587 = .ok () →
      ext.starttls = .ok () → ext.login u pw = .error e →
      send_email ext to_email subject body = "Error sending email: " ++ e ∧
      "Error sending email: " ++ e ≠ "") ∧
    (∀ e, ext.connect "smtp.gmail.com" 587 = .ok () →
      ext.starttls = .ok () → ext.login u pw = .ok () →
      ext.send_message ⟨body, subject, u, to_email⟩ = .error e →
      send_email ext to_email subject body = "Error sending email: " ++ e ∧
      "Error sending email: " ++ e ≠ "") := by
  have htu : truthy (some u) = true := truthy_some u hu2
  have htp : truthy (some pw) = true := truthy_some pw hp2
  refine ⟨fun e hc => ⟨?_, append_left_ne_empty _ _ (by decide)⟩,
    fun e hc hts => ⟨?_, append_left_ne_empty _ _ (by decide)⟩,
    fun e hc hts hl => ⟨?_, append_left_ne_empty _ _ (by decide)⟩,
    fun e hc hts hl hs => ⟨?_, append_left_ne_empty _ _ (by decide)⟩⟩
  · simp [send_email, send_email_run, hu, hp, htu, htp, hc]
  · simp [send_email, send_email_run, hu, hp, htu, htp, hc, hts]
  · simp [send_email, send_email_run, hu, hp, htu, htp, hc, hts, hl]
  · simp [send_email, send_email_run, hu, hp, htu, htp, hc, hts, hl, hs]

/-- Witness for C6 at a concrete transport whose authentication is
rejected. -/
theorem send_email_stage_failure_returns_error_string_witness :
    send_email smtpLoginFail "a@example.com" "Hi" "Test" =
      "Error sending email: " ++ "auth rejected" ∧
    "Error sending email: " ++ "auth rejected" ≠ "" :=
  (send_email_stage_failure_returns_error_string smtpLoginFail "a@example.com"
    "Hi" "Test" "me@example.com" "me@example.com" rfl (by decide) rfl
    (by decide)).2.2.1 "auth rejected" rfl rfl rfl

/-- Claim C7: with valid credentials and a transport that accepts every step,
send_email issues exactly one send on the authenticated session and
returns the success string, which contains both the recipient address and
the subject text. -/
theorem send_email_success_one_send
    (ext : SmtpEnv) (to_email subject body u pw : String)
    (hu : ext.env "SMTP_USER" = some u) (hu2 : u ≠ "")
    (hp : ext.env "SMTP_PASSWORD" = some pw) (hp2 : pw ≠ "")
    (hc : ext.connect "smtp.gmail.com" 587 = .ok ())
    (hts : ext.starttls = .ok ())
    (hl : ext.login u pw = .ok ())
    (hs : ext.send_message ⟨body, subject, u, to_email⟩ = .ok ()) :
    send_email ext to_email subject body =
      "Email successfully sent to " ++ to_email ++ " with subject: " ++ subject ∧
    (∃ pre mid, send_email ext to_email subject body =
      pre ++ to_email ++ (mid ++ subject)) ∧
    ((send_email_run ext to_email subject body).2.filter
      isSendMessageCall).length = 1 ∧
    EmailEvent.loginCall u pw ∈ (send_email_run ext to_email subject body).2 := by
  have htu : truthy (some u) = true := truthy_some u hu2
  have htp : truthy (some pw) = true := truthy_some pw hp2
  have hrun : send_email_run ext to_email subject body =
      ("Email successfully sent to " ++ to_email ++ " with subject: " ++ subject,
       [.msgBuilt ⟨body, subject, u, to_email⟩,
        .connectCall "smtp.gmail.com" 587, .starttlsCall, .loginCall u pw,
        .sendMessageCall ⟨body, subject, u, to_email⟩]) := by
    simp [send_email_run, hu, hp, htu, htp, hc, hts, hl, hs]
  refine ⟨by unfold send_email; rw [hrun], ?_, ?_, ?_⟩
  · refine ⟨"Email successfully sent to ", " with subject: ", ?_⟩
    unfold send_email
    rw [hrun]
    simp [string_append_assoc]
  · rw [hrun]
    rfl
  · rw [hrun]
    simp

/-- Witness for C7 at the happy-path transport oracle with recipient
a@example.com and subject Hi. -/
theorem send_email_success_one_send_witness :
    send_email smtpHappy "a@example.com" "Hi" "Test" =
      "Email successfully sent to " ++ "a@example.com" ++ " with subject: " ++ "Hi" ∧
    (∃ pre mid, send_email smtpHappy "a@example.com" "Hi" "Test" =
      pre ++ "a@example.com" ++ (mid ++ "Hi")) ∧
    ((send_email_run smtpHappy "a@example.com" "Hi" "Test").2.filter
      isSendMessageCall).length = 1 ∧
    EmailEvent.loginCall "me@example.com" "me@example.com" ∈
      (send_email_run smtpHappy "a@example.com" "Hi" "Test").2 :=
  send_email_success_one_send smtpHappy "a@example.com" "Hi" "Test"
    "me@example.com" "me@example.com" rfl (by decide) rfl (by decide) rfl rfl
    rfl rfl

/-- Claim C10: every call that reaches message construction builds exactly one
message, whose body, Subject and To headers are the caller's arguments and
whose From header is the SMTP_USER environment credential. -/
theorem send_email_message_construction
    (ext : SmtpEnv) (to_email subject body u pw : String)
    (hu : ext.env "SMTP_USER" = some u) (hu2 : u ≠ "")
    (hp : ext.env "SMTP_PASSWORD" = some pw) (hp2 : pw ≠ "") :
    (send_email_run ext to_email subject body).2.filter isMsgBuilt =
      [EmailEvent.msgBuilt ⟨body, subject, u, to_email⟩] := by
  have htu : truthy (some u) = true := truthy_some u hu2
  have htp : truthy (some pw) = true := truthy_some pw hp2
  simp only [send_email_run, hu, hp, htu, htp, Bool.not_true, Bool.or_self,
    Bool.false_eq_true, if_false, Option.getD_some]
  rcases hcc : ext.connect "smtp.gmail.com" 587 with e | _
  · rfl
  · rcases hst : ext.starttls with e | _
    · rfl
    · rcases hlg : ext.login u pw with e | _
      · rfl
      · rcases hsm : ext.send_message ⟨body, subject, u, to_email⟩ with e | _
        · rfl
        · rfl

/-- Witness for C10 at the happy-path transport oracle. -/
theorem send_email_message_construction_witness :
    (send_email_run smtpHappy "a@example.com" "Hi" "Test").2.filter isMsgBuilt =
      [EmailEvent.msgBuilt ⟨"Test", "Hi", "me@example.com", "a@example.com"⟩] :=
  send_email_message_construction smtpHappy "a@example.com" "Hi" "Test"
    "me@example.com" "me@example.com" rfl (by decide) rfl (by decide)

end EmailService
